import Mathlib

/-!
# The monit HTTP client of the BOSH agent (`jobsupervisor/monit/http_client.go`)

A shallow embedding of `httpClient` and of the stop-completion polling loop.

* Go `error` values are represented by the text of their `Error()` method;
  `Option String` is a possibly-nil `error`.
* Every HTTP round trip goes through `makeRequest`. The supervisor and the two
  injected transports are an environment `Env`: a deterministic answer to each
  request given the calls made so far. The calls made are threaded through
  every operation as an explicit log.
* `waitForServiceStop` is an unbounded `for` loop in the source; here it takes
  a number of iterations it may run (`fuel`) and reports `none` when that
  number is used up while the service is still pending.
* Logging (`c.logger.Debug`) and `defer response.Body.Close()` have no effect on
  results or on the calls made and are left out.
-/

namespace monit

/-! ## Library values used by the client -/

namespace bosherr

/-- The text of `bosherr.WrapError(cause, msg)` and of `bosherr.WrapErrorf`
once its format is expanded: the message, a colon, then the cause. -/
def WrapError (cause : String) (msg : String) : String :=
  msg ++ ": " ++ cause

end bosherr

namespace boshhttp

/-- The two injected transports that `NewHTTPClient` receives. -/
inductive Client where
  | short
  | long
  deriving DecidableEq, Repr

end boshhttp

/-- The fields of `url.URL` that the client sets. -/
structure URL where
  Scheme : String
  Host : String
  Path : String
  RawQuery : String
  deriving DecidableEq, Repr

/-- An outgoing `http.Request` as `makeRequest` builds it. `BasicAuth` is the
pair given to `SetBasicAuth`, `ContentType` the value of that header. -/
structure Request where
  Method : String
  URL : URL
  Body : String
  BasicAuth : String × String
  ContentType : String
  deriving DecidableEq, Repr

/-- An `http.Response`: status code, status line, and what reading the body to
its end yields (a read error, or the bytes). -/
structure Response where
  StatusCode : Int
  Status : String
  Body : Except String String

/-- One call of `client.Do(request)` on a transport. -/
structure Call where
  client : boshhttp.Client
  request : Request
  deriving DecidableEq, Repr

/-- The calls made so far, oldest first. -/
abbrev Log := List Call

/-! ## `path.Join` (Go standard library), as used by `monitURL` -/

namespace path

/-- Split a path at every slash. -/
def splitSlash : List Char → List (List Char)
  | [] => [[]]
  | c :: cs =>
    if c = '/' then [] :: splitSlash cs
    else
      match splitSlash cs with
      | [] => [[c]]
      | s :: ss => (c :: s) :: ss

/-- Process the elements of a path left to right, as `path.Clean` does; `out`
is the cleaned path so far, innermost element first. An empty element and `.`
are dropped; `..` removes the preceding real element, is dropped at the root
of a rooted path, and is kept at the start of a relative one. -/
def cleanElems (rooted : Bool) : List (List Char) → List (List Char) → List (List Char)
  | [], out => out.reverse
  | e :: es, out =>
    if e = [] ∨ e = ['.'] then cleanElems rooted es out
    else if e = ['.', '.'] then
      match out with
      | top :: rest =>
        if top = ['.', '.'] then cleanElems rooted es (e :: out)
        else cleanElems rooted es rest
      | [] => if rooted then cleanElems rooted es [] else cleanElems rooted es [e]
    else cleanElems rooted es (e :: out)

/-- Go `path.Clean`. -/
def Clean (p : String) : String :=
  match p.data with
  | [] => "."
  | c :: cs =>
    let rooted : Bool := decide (c = '/')
    let body := List.intercalate ['/'] (cleanElems rooted (splitSlash (c :: cs)) [])
    if rooted then String.mk ('/' :: body)
    else if body = [] then "." else String.mk body

/-- Go `path.Join`: empty elements are ignored, the rest are joined with
slashes and cleaned; all elements empty gives the empty string. -/
def Join (elem : List String) : String :=
  match elem.filter (fun e => e ≠ "") with
  | [] => ""
  | es => Clean (String.intercalate "/" es)

end path

/-! ## The status document -/

/-- Modelled from the spec: a service entry of the status document (declared
outside the sources at hand), with its name attribute and the child elements
for the monitor flag, status code, pending-action code and status message. -/
structure serviceTag where
  Name : String
  Monitor : Int
  Status : Int
  PendingAction : Int
  StatusMessage : String
  deriving DecidableEq, Repr

/-- Modelled from the spec: a service group of the status document, with its
name and the names of its member services in document order; the source reads
the member names as `serviceGroup.Services`. -/
structure serviceGroupTag where
  Name : String
  Services : List String
  deriving DecidableEq, Repr

/-- Modelled from the spec: a decoded status snapshot, holding all service
entries and all service groups; the source reads `status.ServiceGroups`. -/
structure status where
  Services : List serviceTag
  ServiceGroups : List serviceGroupTag
  deriving DecidableEq, Repr

/-- Modelled from the spec: the `Service` value handed to callers, with the
fields the source reads: `getServiceByName` reads `Name`, `waitForServiceStop`
reads `Pending`, `Errored` and `StatusMessage`. -/
structure Service where
  Name : String
  Pending : Bool
  Errored : Bool
  StatusMessage : String
  deriving DecidableEq, Repr

/-- Modelled from the spec: the group lookup `status.ServiceGroups.Get(name)`
(its declaration is not among the sources); groups are keyed by name, and the
result says whether the group was found. -/
def serviceGroupsTag.Get (groups : List serviceGroupTag) (name : String) : Option serviceGroupTag :=
  groups.find? (fun g => g.Name == name)

/-- Modelled from the spec: the lookup of a service entry by its name among the
entries of a snapshot (services are keyed by name). -/
def servicesTag.Get (services : List serviceTag) (name : String) : Option serviceTag :=
  services.find? (fun s => s.Name == name)

/-- Modelled from the spec: the two derived booleans of a service entry,
`pending = (pendingActionCode != 0)` and
`errored = (!pending && statusCode indicates a failure)`. Which status codes
indicate a failure is left open by the spec and is the parameter `failure`. -/
def serviceTag.toService (failure : Int → Bool) (t : serviceTag) : Service :=
  let pending : Bool := t.PendingAction != 0
  { Name := t.Name
    Pending := pending
    Errored := !pending && failure t.Status
    StatusMessage := t.StatusMessage }

/-- Modelled from the spec: `Status.ServicesInGroup(name)`, the method of a
snapshot that `getServiceByName` calls (its declaration is not among the
sources). The member names of the group are resolved by lookup among the
service entries, in document order; a member name with no service entry is
skipped; an absent group gives the empty sequence. -/
def status.ServicesInGroup (failure : Int → Bool) (st : status) (name : String) : List Service :=
  match serviceGroupsTag.Get st.ServiceGroups name with
  | none => []
  | some serviceGroup =>
    serviceGroup.Services.filterMap
      (fun serviceName => (servicesTag.Get st.Services serviceName).map (serviceTag.toService failure))

/-! ## The environment -/

/-- Everything outside the client.
* `NewRequest method target` is the error of `http.NewRequest`, if any.
* `Do log client request` is what `client.Do(request)` returns when `log` lists
  the calls already made: a transport error or a response.
* `Decode body` is what the XML decoder (with its charset reader) makes of a
  response body.
* `Failure code` says whether a status code indicates a failure. -/
structure Env where
  NewRequest : String → URL → Option String
  Do : Log → boshhttp.Client → Request → Except String Response
  Decode : Except String String → Except String status
  Failure : Int → Bool

/-! ## `httpClient` -/

/-- The client's configuration (the logger is left out). -/
structure httpClient where
  startClient : boshhttp.Client
  stopClient : boshhttp.Client
  unmonitorClient : boshhttp.Client
  statusClient : boshhttp.Client
  host : String
  username : String
  password : String
  deriving DecidableEq, Repr

/-- `NewHTTPClient`: status and start use the short client, unmonitor and stop
use the long client. -/
def NewHTTPClient (host username password : String)
    (shortClient longClient : boshhttp.Client) : httpClient :=
  { host := host
    username := username
    password := password
    startClient := shortClient
    stopClient := longClient
    unmonitorClient := longClient
    statusClient := shortClient }

namespace httpClient

/-- `monitURL`. -/
def monitURL (c : httpClient) (thing : String) : URL :=
  { Scheme := "http"
    Host := c.host
    Path := path.Join ["/", thing]
    RawQuery := "" }

/-- The request `makeRequest` builds once `http.NewRequest` succeeded. -/
def buildRequest (c : httpClient) (target : URL) (method requestBody : String) : Request :=
  { Method := method
    URL := target
    Body := requestBody
    BasicAuth := (c.username, c.password)
    ContentType := "application/x-www-form-urlencoded" }

/-- `makeRequest`: build the request, set basic auth and the content type,
hand it to the transport. Returns the transport's answer and the new log. -/
def makeRequest (c : httpClient) (env : Env) (client : boshhttp.Client) (target : URL)
    (method requestBody : String) (log : Log) : Except String Response × Log :=
  match env.NewRequest method target with
  | some err => (Except.error err, log)
  | none =>
    let request := c.buildRequest target method requestBody
    (env.Do log client request, log ++ [{ client := client, request := request }])

/-- `validateResponse`: nil exactly on status 200; otherwise the body is read
and the error reproduces status line and body. -/
def validateResponse (_c : httpClient) (response : Response) : Option String :=
  if response.StatusCode = 200 then none
  else
    match response.Body with
    | Except.error err => some (bosherr.WrapError err "Reading body of failed Monit response")
    | Except.ok body => some ("Request failed with " ++ response.Status ++ ": " ++ body)

/-- `StartService`. -/
def StartService (c : httpClient) (env : Env) (serviceName : String) (log : Log) :
    Option String × Log :=
  match c.makeRequest env c.startClient (c.monitURL serviceName) "POST" "action=start" log with
  | (Except.error err, log1) => (some (bosherr.WrapError err "Sending start request to monit"), log1)
  | (Except.ok response, log1) =>
    match c.validateResponse response with
    | some err => (some (bosherr.WrapError err ("Starting Monit service " ++ serviceName)), log1)
    | none => (none, log1)

/-- `UnmonitorService`. -/
def UnmonitorService (c : httpClient) (env : Env) (serviceName : String) (log : Log) :
    Option String × Log :=
  match c.makeRequest env c.unmonitorClient (c.monitURL serviceName) "POST" "action=unmonitor" log with
  | (Except.error err, log1) =>
    (some (bosherr.WrapError err "Sending unmonitor request to monit"), log1)
  | (Except.ok response, log1) =>
    match c.validateResponse response with
    | some err => (some (bosherr.WrapError err ("Unmonitoring Monit service " ++ serviceName)), log1)
    | none => (none, log1)

/-- The unexported `status()`, which `Status()` returns unchanged: one GET of
`/_status2?format=xml` on the status client, validated and decoded. -/
def Status (c : httpClient) (env : Env) (log : Log) : Except String status × Log :=
  let url := { c.monitURL "_status2" with RawQuery := "format=xml" }
  match c.makeRequest env c.statusClient url "GET" "" log with
  | (Except.error err, log1) =>
    (Except.error (bosherr.WrapError err "Sending status request to monit"), log1)
  | (Except.ok response, log1) =>
    match c.validateResponse response with
    | some err => (Except.error (bosherr.WrapError err "Getting monit status"), log1)
    | none =>
      match env.Decode response.Body with
      | Except.error err => (Except.error (bosherr.WrapError err "Unmarshalling Monit status"), log1)
      | Except.ok st => (Except.ok st, log1)

/-- `ServicesInGroup`: one fresh status; the member names of the group `name`
when the group is found, the empty slice and no error when it is not. -/
def ServicesInGroup (c : httpClient) (env : Env) (name : String) (log : Log) :
    Except String (List String) × Log :=
  match c.Status env log with
  | (Except.error err, log1) =>
    (Except.error (bosherr.WrapError err "Getting status from Monit"), log1)
  | (Except.ok st, log1) =>
    match serviceGroupsTag.Get st.ServiceGroups name with
    | none => (Except.ok [], log1)
    | some serviceGroup => (Except.ok serviceGroup.Services, log1)

/-- `getServiceByName`: the service pointer (nil when not found or on error),
the error, and the new log. The lookup goes through the services of the group
`vcap`. -/
def getServiceByName (c : httpClient) (env : Env) (serviceName : String) (log : Log) :
    (Option Service × Option String) × Log :=
  match c.Status env log with
  | (Except.error err, log1) =>
    ((none, some (bosherr.WrapError err "Sending status request to monit")), log1)
  | (Except.ok st, log1) =>
    let services := st.ServicesInGroup env.Failure "vcap"
    ((services.find? (fun service => service.Name == serviceName), none), log1)

/-- What `waitForServiceStop` does once the loop is left with `service`. -/
def afterLoop (serviceName : String) (service : Service) : Option String :=
  if service.Errored then
    some ("Service '" ++ serviceName ++ "' errored with message: '" ++ service.StatusMessage ++ "'")
  else none

/-- `waitForServiceStop`, running at most `fuel` iterations of its loop. The
error of `getServiceByName` is dropped, as in the source. `none` in the first
component: the service was still pending after `fuel` iterations. -/
def waitForServiceStop (c : httpClient) (env : Env) (serviceName : String) :
    Nat → Log → Option (Option String) × Log
  | 0, log => (none, log)
  | fuel + 1, log =>
    match c.getServiceByName env serviceName log with
    | ((none, _), log1) => (some (some ("Service '" ++ serviceName ++ "' was not found")), log1)
    | ((some service, _), log1) =>
      if !service.Pending then (some (afterLoop serviceName service), log1)
      else waitForServiceStop c env serviceName fuel log1

/-- `StopService`, the polling loop running at most `fuel` iterations. The
result of `UnmonitorService` is dropped, as in the source. -/
def StopService (c : httpClient) (env : Env) (serviceName : String) (fuel : Nat) (log : Log) :
    Option (Option String) × Log :=
  let log0 := (c.UnmonitorService env serviceName log).2
  match c.makeRequest env c.stopClient (c.monitURL serviceName) "POST" "action=stop" log0 with
  | (Except.error err, log1) =>
    (some (some (bosherr.WrapError err "Sending stop request to monit")), log1)
  | (Except.ok response, log1) =>
    match c.validateResponse response with
    | some err =>
      (some (some (bosherr.WrapError err ("Stopping Monit service '" ++ serviceName ++ "'"))), log1)
    | none =>
      match c.waitForServiceStop env serviceName fuel log1 with
      | (some (some err), log2) =>
        (some (some (bosherr.WrapError err
          ("Waiting for Monit service '" ++ serviceName ++ "' to stop"))), log2)
      | (some none, log2) => (some none, log2)
      | (none, log2) => (none, log2)

end httpClient

/-! ## Vocabulary of the statements -/

/-- The POST that `UnmonitorService` sends for `serviceName`. -/
def unmonitorCall (c : httpClient) (serviceName : String) : Call :=
  { client := c.unmonitorClient
    request := c.buildRequest (c.monitURL serviceName) "POST" "action=unmonitor" }

/-- The stop POST of `StopService` for `serviceName`. -/
def stopCall (c : httpClient) (serviceName : String) : Call :=
  { client := c.stopClient
    request := c.buildRequest (c.monitURL serviceName) "POST" "action=stop" }

/-- The status GET. -/
def statusCall (c : httpClient) : Call :=
  { client := c.statusClient
    request := c.buildRequest { c.monitURL "_status2" with RawQuery := "format=xml" } "GET" "" }

/-- With `log` the calls made so far, `call` can be built and is answered with
HTTP 200. -/
def Accepts (env : Env) (log : Log) (call : Call) : Prop :=
  env.NewRequest call.request.Method call.request.URL = none ∧
    ∃ r, env.Do log call.client call.request = Except.ok r ∧ r.StatusCode = 200

/-- With `log` the calls made so far, `call` can be built and is answered with
HTTP 200 and a body that decodes to the snapshot `st`. -/
def Shows (env : Env) (log : Log) (call : Call) (st : status) : Prop :=
  env.NewRequest call.request.Method call.request.URL = none ∧
    ∃ r, env.Do log call.client call.request = Except.ok r ∧ r.StatusCode = 200 ∧
      env.Decode r.Body = Except.ok st

/-- The target as stop polling sees it in a decoded snapshot: the entry that
the loop of `getServiceByName` returns, if any. -/
def target (env : Env) (st : status) (serviceName : String) : Option Service :=
  (st.ServicesInGroup env.Failure "vcap").find? (fun service => service.Name == serviceName)

/-- The supervisor's side of one stop, with `log` the calls made before:
the unmonitor POST and the stop POST are answered 200, and the status GETs
that follow show the snapshots `snaps`, in that order. -/
def StopScript (c : httpClient) (env : Env) (serviceName : String) (log : Log)
    (snaps : List status) : Prop :=
  Accepts env log (unmonitorCall c serviceName) ∧
  Accepts env (log ++ [unmonitorCall c serviceName]) (stopCall c serviceName) ∧
  ∀ i st, snaps[i]? = some st →
    Shows env (log ++ [unmonitorCall c serviceName, stopCall c serviceName]
      ++ List.replicate i (statusCall c)) (statusCall c) st

/-- In the snapshot the group `vcap` lists the target, and `entry` is the
snapshot's service entry of that name. -/
def VcapEntry (st : status) (serviceName : String) (entry : serviceTag) : Prop :=
  (∃ g, serviceGroupsTag.Get st.ServiceGroups "vcap" = some g ∧ serviceName ∈ g.Services) ∧
    servicesTag.Get st.Services serviceName = some entry

/-- The target is present and pending in the snapshot. -/
def PendingIn (env : Env) (serviceName : String) (st : status) : Prop :=
  ∃ service, target env st serviceName = some service ∧ service.Pending = true

/-- A service name that is one ordinary path element: not empty, without a
slash, and neither `.` nor `..`. -/
def PlainName (name : String) : Prop :=
  name.data ≠ [] ∧ '/' ∉ name.data ∧ name.data ≠ ['.'] ∧ name.data ≠ ['.', '.']

instance (name : String) : Decidable (PlainName name) :=
  inferInstanceAs (Decidable (_ ∧ _))

/-- The text `part` occurs in `text`. -/
def TextContains (text part : String) : Prop :=
  part.data <:+: text.data

instance (text part : String) : Decidable (TextContains text part) :=
  inferInstanceAs (Decidable (part.data <:+: text.data))

/-- The error text names the operation (by the word given) and the service. -/
def Names (text operation serviceName : String) : Prop :=
  TextContains text operation ∧ TextContains text serviceName

/-! ## Concrete supervisors -/

/-- A snapshot with the single service `test-service`, listed in the group
`vcap`, with the given monitor flag, status code, pending-action code and
status message. -/
def snapshot (monitor statusCode pendingAction : Int) (message : String) : status :=
  { Services := [{ Name := "test-service", Monitor := monitor, Status := statusCode,
                   PendingAction := pendingAction, StatusMessage := message }]
    ServiceGroups := [{ Name := "vcap", Services := ["test-service"] }] }

/-- A snapshot that has the service entry `test-service` and lists it in the
group `other` only; there is no group `vcap`. -/
def otherGroupSnapshot : status :=
  { Services := [{ Name := "test-service", Monitor := 1, Status := 0, PendingAction := 0,
                   StatusMessage := "" }]
    ServiceGroups := [{ Name := "other", Services := ["test-service"] }] }

/-- A snapshot whose entry `test-service` is stopped (monitor flag 0, status 0,
no pending action) and is listed in the group `other` only; there is no group
`vcap`. -/
def outsideVcapStopped : status :=
  { Services := [{ Name := "test-service", Monitor := 0, Status := 0, PendingAction := 0,
                   StatusMessage := "" }]
    ServiceGroups := [{ Name := "other", Services := ["test-service"] }] }

/-- The documents a test supervisor serves, by name. -/
def testDecode : Except String String → Except String status
  | Except.ok "running" => Except.ok (snapshot 1 0 0 "")
  | Except.ok "stopping" => Except.ok (snapshot 0 0 3 "")
  | Except.ok "stopped" => Except.ok (snapshot 0 0 0 "")
  | Except.ok "failed" => Except.ok (snapshot 1 4096 0 "failed to stop")
  | Except.ok "empty" => Except.ok { Services := [], ServiceGroups := [] }
  | Except.ok "other-group" => Except.ok otherGroupSnapshot
  | Except.ok "other-group-stopped" => Except.ok outsideVcapStopped
  | Except.ok _ => Except.error "EOF"
  | Except.error err => Except.error err

/-- How many status GETs a log holds. -/
def statusTries (log : Log) : Nat :=
  (log.filter (fun call => call.request.URL.Path == "/_status2")).length

/-- A supervisor in the manner of the test handlers: every request is answered
200; the n-th GET of `/_status2` is answered with the n-th of `bodies` (an
empty body once they are used up), any other request with an empty body. -/
def testServer (bodies : List String) : Env :=
  { NewRequest := fun _ _ => none
    Do := fun log _ request =>
      if request.URL.Path = "/_status2" then
        Except.ok { StatusCode := 200, Status := "200 OK",
                    Body := Except.ok (bodies.getD (statusTries log) "") }
      else Except.ok { StatusCode := 200, Status := "200 OK", Body := Except.ok "" }
    Decode := testDecode
    Failure := fun code => code != 0 }

/-- The two fake transports of the test `uses the longClient to send a stop
request`: the long client answers every request with status 200; the short
client, on which the test sets no status code, answers with status code 0.
Both answer with an empty body. -/
def fakeTransports : Env :=
  { NewRequest := fun _ _ => none
    Do := fun _ client _ =>
      match client with
      | boshhttp.Client.long =>
        Except.ok { StatusCode := 200, Status := "200 OK", Body := Except.ok "" }
      | boshhttp.Client.short =>
        Except.ok { StatusCode := 0, Status := "", Body := Except.ok "" }
    Decode := testDecode
    Failure := fun code => code != 0 }

/-- The client of `newFakeClient`. -/
def fakeClient : httpClient :=
  NewHTTPClient "agent.example.com" "fake-user" "fake-pass"
    boshhttp.Client.short boshhttp.Client.long

/-- The test supervisor serving one settled snapshot, except that it answers
the unmonitor POST with HTTP 500. -/
def unmonitorRefused : Env :=
  { testServer ["stopped"] with
    Do := fun log client request =>
      if request.Body = "action=unmonitor" then
        Except.ok { StatusCode := 500, Status := "500 Internal Server Error",
                    Body := Except.ok "unmonitor refused" }
      else (testServer ["stopped"]).Do log client request }

/-- The test supervisor, except that it answers every status GET with
HTTP 500. -/
def statusRefused : Env :=
  { testServer [] with
    Do := fun log client request =>
      if request.URL.Path = "/_status2" then
        Except.ok { StatusCode := 500, Status := "500 Internal Server Error",
                    Body := Except.ok "status unavailable" }
      else (testServer []).Do log client request }

/-- A status document in the manner of the status fixture: the group `vcap`
lists `dummy`, a second group lists two names, one of them without a service
entry. -/
def fixtureSnapshot : status :=
  { Services := [{ Name := "dummy", Monitor := 1, Status := 0, PendingAction := 0,
                   StatusMessage := "" },
                 { Name := "worker", Monitor := 1, Status := 0, PendingAction := 0,
                   StatusMessage := "" }]
    ServiceGroups := [{ Name := "vcap", Services := ["dummy"] },
                      { Name := "batch", Services := ["worker", "gone"] }] }

/-- A supervisor that answers every request with HTTP 200 and a body that
decodes to the fixture snapshot. -/
def fixtureServer : Env :=
  { NewRequest := fun _ _ => none
    Do := fun _ _ _ => Except.ok { StatusCode := 200, Status := "200 OK", Body := Except.ok "" }
    Decode := fun _ => Except.ok fixtureSnapshot
    Failure := fun code => code != 0 }

/-- Transports that fail every round trip below the HTTP layer. -/
def transportDown : Env :=
  { NewRequest := fun _ _ => none
    Do := fun _ _ _ => Except.error "connection refused"
    Decode := testDecode
    Failure := fun code => code != 0 }

/-- A supervisor that answers every request with HTTP 503. -/
def supervisorBusy : Env :=
  { NewRequest := fun _ _ => none
    Do := fun _ _ _ =>
      Except.ok { StatusCode := 503, Status := "503 Service Unavailable",
                  Body := Except.ok "busy" }
    Decode := testDecode
    Failure := fun code => code != 0 }

/-! ## Basic facts about one round trip -/

theorem makeRequest_built (c : httpClient) (env : Env) (client : boshhttp.Client) (target : URL)
    (method requestBody : String) (log : Log) (h : env.NewRequest method target = none) :
    c.makeRequest env client target method requestBody log =
      (env.Do log client (c.buildRequest target method requestBody),
        log ++ [{ client := client, request := c.buildRequest target method requestBody }]) := by
  simp [httpClient.makeRequest, h]

theorem validateResponse_ok (c : httpClient) (r : Response) (h : r.StatusCode = 200) :
    c.validateResponse r = none := by
  simp [httpClient.validateResponse, h]

theorem UnmonitorService_log (c : httpClient) (env : Env) (serviceName : String) (log : Log)
    (h : env.NewRequest "POST" (c.monitURL serviceName) = none) :
    (c.UnmonitorService env serviceName log).2 = log ++ [unmonitorCall c serviceName] := by
  unfold httpClient.UnmonitorService
  rw [makeRequest_built c env _ _ _ _ log h]
  cases env.Do log c.unmonitorClient
      (c.buildRequest (c.monitURL serviceName) "POST" "action=unmonitor") with
  | error e => rfl
  | ok r =>
    simp only [unmonitorCall]
    cases c.validateResponse r <;> rfl

theorem Status_of_shows (c : httpClient) (env : Env) (log : Log) (st : status)
    (h : Shows env log (statusCall c) st) :
    c.Status env log = (Except.ok st, log ++ [statusCall c]) := by
  obtain ⟨hreq, r, hdo, hcode, hdec⟩ := h
  unfold httpClient.Status
  simp only [statusCall, httpClient.buildRequest] at hreq hdo
  simp only [httpClient.makeRequest, hreq, httpClient.buildRequest, hdo,
    validateResponse_ok c r hcode, hdec, statusCall]

theorem getServiceByName_of_shows (c : httpClient) (env : Env) (serviceName : String) (log : Log)
    (st : status) (h : Shows env log (statusCall c) st) :
    c.getServiceByName env serviceName log =
      ((target env st serviceName, none), log ++ [statusCall c]) := by
  unfold httpClient.getServiceByName
  rw [Status_of_shows c env log st h]
  rfl

/-! ## The polling loop -/

theorem wait_step_pending (c : httpClient) (env : Env) (serviceName : String) (fuel : Nat)
    (log : Log) (st : status) (h : Shows env log (statusCall c) st)
    (hp : PendingIn env serviceName st) :
    c.waitForServiceStop env serviceName (fuel + 1) log =
      c.waitForServiceStop env serviceName fuel (log ++ [statusCall c]) := by
  obtain ⟨service, hfound, hpending⟩ := hp
  rw [httpClient.waitForServiceStop, getServiceByName_of_shows c env serviceName log st h, hfound]
  simp [hpending]

theorem wait_step_settled (c : httpClient) (env : Env) (serviceName : String) (fuel : Nat)
    (log : Log) (st : status) (service : Service) (h : Shows env log (statusCall c) st)
    (hfound : target env st serviceName = some service) (hsettled : service.Pending = false) :
    c.waitForServiceStop env serviceName (fuel + 1) log =
      (some (httpClient.afterLoop serviceName service), log ++ [statusCall c]) := by
  rw [httpClient.waitForServiceStop, getServiceByName_of_shows c env serviceName log st h, hfound]
  simp [hsettled]

theorem wait_step_absent (c : httpClient) (env : Env) (serviceName : String) (fuel : Nat)
    (log : Log) (st : status) (h : Shows env log (statusCall c) st)
    (habsent : target env st serviceName = none) :
    c.waitForServiceStop env serviceName (fuel + 1) log =
      (some (some ("Service '" ++ serviceName ++ "' was not found")), log ++ [statusCall c]) := by
  rw [httpClient.waitForServiceStop, getServiceByName_of_shows c env serviceName log st h, habsent]

theorem wait_while_pending (c : httpClient) (env : Env) (serviceName : String) (fuel : Nat) :
    ∀ (pending : List status) (log : Log),
      (∀ i st, pending[i]? = some st →
        Shows env (log ++ List.replicate i (statusCall c)) (statusCall c) st) →
      (∀ st ∈ pending, PendingIn env serviceName st) →
      c.waitForServiceStop env serviceName (pending.length + fuel) log =
        c.waitForServiceStop env serviceName fuel
          (log ++ List.replicate pending.length (statusCall c)) := by
  intro pending
  induction pending with
  | nil => intro log _ _; simp
  | cons st rest ih =>
    intro log hshow hpend
    have h0 : Shows env log (statusCall c) st := by
      have := hshow 0 st (by simp)
      simpa using this
    have hstep := wait_step_pending c env serviceName (rest.length + fuel) log st h0
      (hpend st (by simp))
    have hrest := ih (log ++ [statusCall c])
      (fun i st' hi => by
        have := hshow (i + 1) st' (by simpa using hi)
        simpa [List.replicate_succ] using this)
      (fun st' hmem => hpend st' (by simp [hmem]))
    have hlen : (st :: rest).length + fuel = rest.length + fuel + 1 := by
      simp only [List.length_cons]; omega
    rw [hlen, hstep, hrest]
    simp [List.replicate_succ]

theorem StopService_accepted (c : httpClient) (env : Env) (serviceName : String) (fuel : Nat)
    (log : Log) (hun : Accepts env log (unmonitorCall c serviceName))
    (hstop : Accepts env (log ++ [unmonitorCall c serviceName]) (stopCall c serviceName)) :
    c.StopService env serviceName fuel log =
      match c.waitForServiceStop env serviceName fuel
          (log ++ [unmonitorCall c serviceName, stopCall c serviceName]) with
      | (some (some err), log2) =>
        (some (some (bosherr.WrapError err
          ("Waiting for Monit service '" ++ serviceName ++ "' to stop"))), log2)
      | (some none, log2) => (some none, log2)
      | (none, log2) => (none, log2) := by
  obtain ⟨hreq, _⟩ := hun
  obtain ⟨hreq2, r, hdo, hcode⟩ := hstop
  simp only [unmonitorCall, stopCall, httpClient.buildRequest] at hreq hreq2 hdo
  unfold httpClient.StopService
  simp only [UnmonitorService_log c env serviceName log hreq]
  simp only [httpClient.makeRequest, hreq2, httpClient.buildRequest, unmonitorCall, hdo,
    validateResponse_ok c r hcode, stopCall, List.append_assoc, List.singleton_append]

theorem script_pending_shows (c : httpClient) (env : Env) (serviceName : String) (log : Log)
    (pending : List status) (last : status)
    (hscript : StopScript c env serviceName log (pending ++ [last])) :
    ∀ i st, pending[i]? = some st →
      Shows env (log ++ [unmonitorCall c serviceName, stopCall c serviceName]
        ++ List.replicate i (statusCall c)) (statusCall c) st := by
  intro i st hi
  apply hscript.2.2 i st
  have hlt : i < pending.length := by
    by_contra hge
    rw [List.getElem?_eq_none (by omega)] at hi
    exact Option.noConfusion hi
  rw [List.getElem?_append_left hlt]
  exact hi

theorem script_last_shows (c : httpClient) (env : Env) (serviceName : String) (log : Log)
    (pending : List status) (last : status)
    (hscript : StopScript c env serviceName log (pending ++ [last])) :
    Shows env (log ++ [unmonitorCall c serviceName, stopCall c serviceName]
      ++ List.replicate pending.length (statusCall c)) (statusCall c) last := by
  apply hscript.2.2 pending.length last
  simp

theorem replicate_snoc (n : Nat) (call : Call) :
    List.replicate n call ++ [call] = List.replicate (n + 1) call := by
  induction n with
  | zero => rfl
  | succ n ih => rw [List.replicate_succ, List.cons_append, ih]; rfl

theorem StopService_settled (c : httpClient) (env : Env) (serviceName : String) (log : Log)
    (pending : List status) (last : status) (service : Service) (fuel : Nat)
    (hscript : StopScript c env serviceName log (pending ++ [last]))
    (hpending : ∀ st ∈ pending, PendingIn env serviceName st)
    (hlast : target env last serviceName = some service)
    (hsettled : service.Pending = false)
    (hfuel : pending.length < fuel) :
    c.StopService env serviceName fuel log =
      (some ((httpClient.afterLoop serviceName service).map
          (fun err => bosherr.WrapError err
            ("Waiting for Monit service '" ++ serviceName ++ "' to stop"))),
        log ++ [unmonitorCall c serviceName, stopCall c serviceName]
          ++ List.replicate (pending.length + 1) (statusCall c)) := by
  obtain ⟨rest, hrest⟩ : ∃ rest, fuel = pending.length + (rest + 1) :=
    ⟨fuel - pending.length - 1, by omega⟩
  rw [StopService_accepted c env serviceName fuel log hscript.1 hscript.2.1, hrest,
    wait_while_pending c env serviceName (rest + 1) pending _
      (script_pending_shows c env serviceName log pending last hscript) hpending,
    wait_step_settled c env serviceName rest _ last service
      (script_last_shows c env serviceName log pending last hscript) hlast hsettled]
  rw [List.append_assoc _ (List.replicate _ _), replicate_snoc]
  cases httpClient.afterLoop serviceName service <;> rfl

theorem StopService_absent (c : httpClient) (env : Env) (serviceName : String) (log : Log)
    (pending : List status) (last : status) (fuel : Nat)
    (hscript : StopScript c env serviceName log (pending ++ [last]))
    (hpending : ∀ st ∈ pending, PendingIn env serviceName st)
    (habsent : target env last serviceName = none)
    (hfuel : pending.length < fuel) :
    c.StopService env serviceName fuel log =
      (some (some (bosherr.WrapError ("Service '" ++ serviceName ++ "' was not found")
          ("Waiting for Monit service '" ++ serviceName ++ "' to stop"))),
        log ++ [unmonitorCall c serviceName, stopCall c serviceName]
          ++ List.replicate (pending.length + 1) (statusCall c)) := by
  obtain ⟨rest, hrest⟩ : ∃ rest, fuel = pending.length + (rest + 1) :=
    ⟨fuel - pending.length - 1, by omega⟩
  rw [StopService_accepted c env serviceName fuel log hscript.1 hscript.2.1, hrest,
    wait_while_pending c env serviceName (rest + 1) pending _
      (script_pending_shows c env serviceName log pending last hscript) hpending,
    wait_step_absent c env serviceName rest _ last
      (script_last_shows c env serviceName log pending last hscript) habsent]
  rw [List.append_assoc _ (List.replicate _ _), replicate_snoc]

theorem wait_until_absent (c : httpClient) (env : Env) (serviceName : String) (log : Log)
    (pending : List status) (last : status) (fuel : Nat)
    (hscript : StopScript c env serviceName log (pending ++ [last]))
    (hpending : ∀ st ∈ pending, PendingIn env serviceName st)
    (habsent : target env last serviceName = none)
    (hfuel : pending.length < fuel) :
    c.waitForServiceStop env serviceName fuel
        (log ++ [unmonitorCall c serviceName, stopCall c serviceName]) =
      (some (some ("Service '" ++ serviceName ++ "' was not found")),
        log ++ [unmonitorCall c serviceName, stopCall c serviceName]
          ++ List.replicate (pending.length + 1) (statusCall c)) := by
  obtain ⟨rest, hrest⟩ : ∃ rest, fuel = pending.length + (rest + 1) :=
    ⟨fuel - pending.length - 1, by omega⟩
  rw [hrest,
    wait_while_pending c env serviceName (rest + 1) pending _
      (script_pending_shows c env serviceName log pending last hscript) hpending,
    wait_step_absent c env serviceName rest _ last
      (script_last_shows c env serviceName log pending last hscript) habsent]
  rw [List.append_assoc _ (List.replicate _ _), replicate_snoc]

theorem wrap_waiting (serviceName rest : String) :
    bosherr.WrapError ("Service '" ++ rest)
        ("Waiting for Monit service '" ++ serviceName ++ "' to stop") =
      "Waiting for Monit service '" ++ serviceName ++ "' to stop: Service '" ++ rest := by
  have h : ("' to stop: Service '" : String) = "' to stop" ++ (": " ++ "Service '") := by decide
  unfold bosherr.WrapError
  rw [h]
  simp only [String.append_assoc]

theorem textContains_of_eq (text pre part post : String) (h : text = pre ++ part ++ post) :
    TextContains text part := by
  refine ⟨pre.data, post.data, ?_⟩
  rw [h]
  simp [String.data_append]

/-! ## What a test supervisor does -/

theorem testServer_script (c : httpClient) (serviceName : String) (bodies : List String)
    (snaps : List status)
    (hdocs : ∀ i st, snaps[i]? = some st →
      testDecode (Except.ok (bodies.getD i "")) = Except.ok st)
    (hname : (c.monitURL serviceName).Path ≠ "/_status2") :
    StopScript c (testServer bodies) serviceName [] snaps := by
  refine ⟨⟨rfl, ?_⟩, ⟨rfl, ?_⟩, ?_⟩
  · refine ⟨⟨200, "200 OK", Except.ok ""⟩, ?_, rfl⟩
    simp only [testServer, unmonitorCall, httpClient.buildRequest]
    rw [if_neg hname]
  · refine ⟨⟨200, "200 OK", Except.ok ""⟩, ?_, rfl⟩
    simp only [testServer, stopCall, httpClient.buildRequest]
    rw [if_neg hname]
  · intro i st hi
    refine ⟨rfl, ⟨200, "200 OK", Except.ok (bodies.getD i "")⟩, ?_, rfl, hdocs i st hi⟩
    have hpath : (statusCall c).request.URL.Path = "/_status2" := by
      simp only [statusCall, httpClient.buildRequest, httpClient.monitURL]
      decide
    have htries : statusTries ([] ++ [unmonitorCall c serviceName, stopCall c serviceName]
        ++ List.replicate i (statusCall c)) = i := by
      simp only [statusTries, List.nil_append, List.filter_append, List.length_append]
      have h1 : (List.filter (fun call => call.request.URL.Path == "/_status2")
          [unmonitorCall c serviceName, stopCall c serviceName]) = [] := by
        simp [unmonitorCall, stopCall, httpClient.buildRequest, hname]
      have h2 : (List.filter (fun call => call.request.URL.Path == "/_status2")
          (List.replicate i (statusCall c))) = List.replicate i (statusCall c) := by
        rw [List.filter_eq_self]
        intro a ha
        rw [List.eq_of_mem_replicate ha]
        simp [hpath]
      rw [h1, h2]
      simp
    simp only [testServer, hpath, if_true, htries]

/-! ## The claims -/

/-- C2: the code at the snapshots of the test (running, then stopping, then
stopped). The first status GET shows the target running with no pending
action; the loop ends there, and StopService returns success after three calls
(unmonitor, stop, one status GET), not after the five the test expects. -/
theorem StopService_ends_polling_while_running :
    target (testServer ["running", "stopping", "stopped"]) (snapshot 1 0 0 "") "test-service"
        = some { Name := "test-service", Pending := false, Errored := false,
                 StatusMessage := "" } ∧
      fakeClient.StopService (testServer ["running", "stopping", "stopped"]) "test-service" 5 []
        = (some none,
            [unmonitorCall fakeClient "test-service", stopCall fakeClient "test-service",
              statusCall fakeClient]) := by
  constructor <;> decide

/-- C3: the code when the unmonitor POST is answered with HTTP 500 while the
stop POST is accepted and the status shows the target stopped.
UnmonitorService itself reports the failure, and StopService returns success:
the failure of its first step is dropped. -/
theorem StopService_drops_unmonitor_failure :
    (fakeClient.UnmonitorService unmonitorRefused "test-service" []).1
        = some ("Unmonitoring Monit service test-service: "
            ++ "Request failed with 500 Internal Server Error: unmonitor refused") ∧
      (fakeClient.StopService unmonitorRefused "test-service" 5 []).1 = some none := by
  constructor <;> decide

set_option maxRecDepth 100000 in
/-- C7: the code when the status GET of the first polling iteration is answered
with HTTP 500. The status query fails with the cause text, StopService fails at
once (one status GET), and its error text is that of a service not found: the
cause text of the status failure is not in it. -/
theorem StopService_hides_status_failure :
    (fakeClient.getServiceByName statusRefused "test-service"
        [unmonitorCall fakeClient "test-service", stopCall fakeClient "test-service"]).1
      = (none, some ("Sending status request to monit: Getting monit status: "
          ++ "Request failed with 500 Internal Server Error: status unavailable")) ∧
    fakeClient.StopService statusRefused "test-service" 5 []
      = (some (some ("Waiting for Monit service 'test-service' to stop: "
            ++ "Service 'test-service' was not found")),
          [unmonitorCall fakeClient "test-service", stopCall fakeClient "test-service",
            statusCall fakeClient]) ∧
    ¬ TextContains
        ("Waiting for Monit service 'test-service' to stop: "
          ++ "Service 'test-service' was not found")
        "Request failed with 500 Internal Server Error: status unavailable" := by
  refine ⟨?_, ?_, ?_⟩ <;> decide

/-- C4: when the unmonitor and stop POSTs are accepted and polling settles on
a snapshot in which the target is not pending and is errored with status
message m, StopService (given enough iterations) fails, and its error text is
the fixed wording around the service name and m: m is in it unchanged, and so
is the service name. -/
theorem StopService_errored_carries_message (c : httpClient) (env : Env) (serviceName : String)
    (m : String) (log : Log) (pending : List status) (last : status) (service : Service)
    (fuel : Nat)
    (hscript : StopScript c env serviceName log (pending ++ [last]))
    (hpending : ∀ st ∈ pending, PendingIn env serviceName st)
    (hlast : target env last serviceName = some service)
    (hsettled : service.Pending = false)
    (herrored : service.Errored = true)
    (hmessage : service.StatusMessage = m)
    (hfuel : pending.length < fuel) :
    ∃ text, (c.StopService env serviceName fuel log).1 = some (some text) ∧
      text = "Waiting for Monit service '" ++ serviceName ++ "' to stop: Service '"
        ++ serviceName ++ "' errored with message: '" ++ m ++ "'" ∧
      TextContains text m ∧ TextContains text serviceName := by
  have hafter : httpClient.afterLoop serviceName service =
      some ("Service '" ++ serviceName ++ "' errored with message: '" ++ m ++ "'") := by
    simp [httpClient.afterLoop, herrored, hmessage]
  have htext : bosherr.WrapError
      ("Service '" ++ serviceName ++ "' errored with message: '" ++ m ++ "'")
      ("Waiting for Monit service '" ++ serviceName ++ "' to stop") =
      "Waiting for Monit service '" ++ serviceName ++ "' to stop: Service '"
        ++ serviceName ++ "' errored with message: '" ++ m ++ "'" := by
    have h := wrap_waiting serviceName (serviceName ++ "' errored with message: '" ++ m ++ "'")
    simp only [String.append_assoc] at h ⊢
    exact h
  rw [StopService_settled c env serviceName log pending last service fuel hscript hpending
    hlast hsettled hfuel, hafter]
  refine ⟨bosherr.WrapError
      ("Service '" ++ serviceName ++ "' errored with message: '" ++ m ++ "'")
      ("Waiting for Monit service '" ++ serviceName ++ "' to stop"), rfl, htext, ?_, ?_⟩
  · rw [htext]
    exact textContains_of_eq _
      ("Waiting for Monit service '" ++ serviceName ++ "' to stop: Service '"
        ++ serviceName ++ "' errored with message: '") m "'" rfl
  · rw [htext]
    exact textContains_of_eq _ "Waiting for Monit service '" serviceName
      ("' to stop: Service '" ++ serviceName ++ "' errored with message: '" ++ m ++ "'")
      (by simp only [String.append_assoc])

theorem StopService_errored_carries_message_witness :
    ∃ text,
      (fakeClient.StopService (testServer ["stopping", "failed"]) "test-service" 2 []).1
          = some (some text) ∧
        text = "Waiting for Monit service '" ++ "test-service" ++ "' to stop: Service '"
          ++ "test-service" ++ "' errored with message: '" ++ "failed to stop" ++ "'" ∧
        TextContains text "failed to stop" ∧ TextContains text "test-service" :=
  StopService_errored_carries_message fakeClient (testServer ["stopping", "failed"])
    "test-service" "failed to stop" [] [snapshot 0 0 3 ""] (snapshot 1 4096 0 "failed to stop")
    { Name := "test-service", Pending := false, Errored := true,
      StatusMessage := "failed to stop" } 2
    (testServer_script fakeClient "test-service" ["stopping", "failed"]
      ([snapshot 0 0 3 ""] ++ [snapshot 1 4096 0 "failed to stop"])
      (fun i st hi => by
        match i, hi with
        | 0, hi => simp at hi; subst hi; rfl
        | 1, hi => simp at hi; subst hi; rfl
        | i + 2, hi => simp at hi)
      (by decide))
    (fun st hst => by
      simp at hst
      subst hst
      exact ⟨{ Name := "test-service", Pending := true, Errored := false, StatusMessage := "" },
        by decide, rfl⟩)
    (by decide) rfl rfl rfl (by decide)

/-- C5: when the unmonitor and stop POSTs are accepted, the first k status
snapshots show the target pending and snapshot k+1 does not contain it, the
polling loop (given more than k iterations) ends with the not-found error
after exactly k+1 status GETs, and StopService fails with that error, wrapped
in its waiting context, having made no further call. -/
theorem StopService_not_found_ends_polling (c : httpClient) (env : Env) (serviceName : String)
    (log : Log) (pending : List status) (last : status) (fuel : Nat)
    (hscript : StopScript c env serviceName log (pending ++ [last]))
    (hpending : ∀ st ∈ pending, PendingIn env serviceName st)
    (habsent : target env last serviceName = none)
    (hfuel : pending.length < fuel) :
    c.waitForServiceStop env serviceName fuel
        (log ++ [unmonitorCall c serviceName, stopCall c serviceName]) =
      (some (some ("Service '" ++ serviceName ++ "' was not found")),
        log ++ [unmonitorCall c serviceName, stopCall c serviceName]
          ++ List.replicate (pending.length + 1) (statusCall c)) ∧
    c.StopService env serviceName fuel log =
      (some (some ("Waiting for Monit service '" ++ serviceName ++ "' to stop: Service '"
          ++ serviceName ++ "' was not found")),
        log ++ [unmonitorCall c serviceName, stopCall c serviceName]
          ++ List.replicate (pending.length + 1) (statusCall c)) := by
  refine ⟨wait_until_absent c env serviceName log pending last fuel hscript hpending habsent
    hfuel, ?_⟩
  rw [StopService_absent c env serviceName log pending last fuel hscript hpending habsent hfuel]
  have h := wrap_waiting serviceName (serviceName ++ "' was not found")
  simp only [String.append_assoc] at h ⊢
  rw [h]

theorem StopService_not_found_ends_polling_witness :
    fakeClient.waitForServiceStop (testServer ["stopping", "empty"]) "test-service" 2
        ([] ++ [unmonitorCall fakeClient "test-service", stopCall fakeClient "test-service"]) =
      (some (some ("Service '" ++ "test-service" ++ "' was not found")),
        [] ++ [unmonitorCall fakeClient "test-service", stopCall fakeClient "test-service"]
          ++ List.replicate ([snapshot 0 0 3 ""].length + 1) (statusCall fakeClient)) ∧
    fakeClient.StopService (testServer ["stopping", "empty"]) "test-service" 2 [] =
      (some (some ("Waiting for Monit service '" ++ "test-service" ++ "' to stop: Service '"
          ++ "test-service" ++ "' was not found")),
        [] ++ [unmonitorCall fakeClient "test-service", stopCall fakeClient "test-service"]
          ++ List.replicate ([snapshot 0 0 3 ""].length + 1) (statusCall fakeClient)) :=
  StopService_not_found_ends_polling fakeClient (testServer ["stopping", "empty"])
    "test-service" [] [snapshot 0 0 3 ""] { Services := [], ServiceGroups := [] } 2
    (testServer_script fakeClient "test-service" ["stopping", "empty"]
      ([snapshot 0 0 3 ""] ++ [{ Services := [], ServiceGroups := [] }])
      (fun i st hi => by
        match i, hi with
        | 0, hi => simp at hi; subst hi; rfl
        | 1, hi => simp at hi; subst hi; rfl
        | i + 2, hi => simp at hi)
      (by decide))
    (fun st hst => by
      simp at hst
      subst hst
      exact ⟨{ Name := "test-service", Pending := true, Errored := false, StatusMessage := "" },
        by decide, rfl⟩)
    (by decide) (by decide)

/-- C8: validateResponse succeeds exactly when the status code is 200; for any
other status code (204 as much as 500) with a readable body, its error is
`Request failed with`, then the status line, a colon, and the whole body, both
unchanged. -/
theorem validateResponse_200_only (c : httpClient) (response : Response) :
    (c.validateResponse response = none ↔ response.StatusCode = 200) ∧
      ∀ body, response.StatusCode ≠ 200 → response.Body = Except.ok body →
        c.validateResponse response
            = some ("Request failed with " ++ response.Status ++ ": " ++ body) ∧
          TextContains ("Request failed with " ++ response.Status ++ ": " ++ body)
            response.Status ∧
          TextContains ("Request failed with " ++ response.Status ++ ": " ++ body) body := by
  constructor
  · unfold httpClient.validateResponse
    by_cases h : response.StatusCode = 200
    · simp [h]
    · simp only [h, if_false, iff_false]
      cases response.Body <;> simp
  · intro body hcode hbody
    refine ⟨?_, ?_, ?_⟩
    · simp [httpClient.validateResponse, hcode, hbody]
    · exact textContains_of_eq _ "Request failed with " response.Status (": " ++ body)
        (by simp [String.append_assoc])
    · exact textContains_of_eq _ ("Request failed with " ++ response.Status ++ ": ") body ""
        (by simp)

theorem validateResponse_200_only_witness :
    (fakeClient.validateResponse
        { StatusCode := 204, Status := "204 No Content", Body := Except.ok "partial" } = none ↔
      (204 : Int) = 200) ∧
    (fakeClient.validateResponse
        { StatusCode := 204, Status := "204 No Content", Body := Except.ok "partial" }
      = some ("Request failed with " ++ "204 No Content" ++ ": " ++ "partial") ∧
    TextContains ("Request failed with " ++ "204 No Content" ++ ": " ++ "partial")
      "204 No Content" ∧
    TextContains ("Request failed with " ++ "204 No Content" ++ ": " ++ "partial") "partial") :=
  ⟨(validateResponse_200_only fakeClient
      { StatusCode := 204, Status := "204 No Content", Body := Except.ok "partial" }).1,
    (validateResponse_200_only fakeClient
      { StatusCode := 204, Status := "204 No Content", Body := Except.ok "partial" }).2
      "partial" (by decide) rfl⟩

/-! ### The lookup of stop polling -/

theorem servicesTag_Get_name (services : List serviceTag) (name : String) (e : serviceTag)
    (h : servicesTag.Get services name = some e) : e.Name = name := by
  have := List.find?_some h
  simpa using this

theorem find_resolved (failure : Int → Bool) (services : List serviceTag) (n : String) :
    ∀ names : List String,
      (names.filterMap
          (fun m => (servicesTag.Get services m).map (serviceTag.toService failure))).find?
        (fun service => service.Name == n)
      = if n ∈ names then (servicesTag.Get services n).map (serviceTag.toService failure)
        else none := by
  intro names
  induction names with
  | nil => simp
  | cons m ms ih =>
    cases hget : servicesTag.Get services m with
    | none =>
      rw [List.filterMap_cons_none (by simp [hget]), ih]
      by_cases hmn : n = m
      · subst hmn; simp [hget]
      · simp [hmn]
    | some e =>
      have hname : e.Name = m := servicesTag_Get_name services m e hget
      rw [List.filterMap_cons_some (by simp [hget]; rfl), List.find?_cons]
      by_cases hmn : n = m
      · subst hmn
        simp [serviceTag.toService, hname, hget]
      · have hne : ((serviceTag.toService failure e).Name == n) = false := by
          simp only [serviceTag.toService, hname, beq_eq_false_iff_ne, ne_eq]
          exact fun h => hmn h.symm
        rw [hne, ih]
        simp [hmn]

theorem target_eq (env : Env) (st : status) (n : String) :
    target env st n =
      match serviceGroupsTag.Get st.ServiceGroups "vcap" with
      | none => none
      | some g =>
        if n ∈ g.Services then (servicesTag.Get st.Services n).map (serviceTag.toService env.Failure)
        else none := by
  unfold target status.ServicesInGroup
  cases serviceGroupsTag.Get st.ServiceGroups "vcap" with
  | none => rfl
  | some g => exact find_resolved env.Failure st.Services n g.Services

theorem servicesTag_Get_isSome (services : List serviceTag) (n : String) :
    (servicesTag.Get services n).isSome = true ↔ ∃ e ∈ services, e.Name = n := by
  unfold servicesTag.Get
  rw [List.find?_isSome]
  simp

theorem getServiceByName_of_status (c : httpClient) (env : Env) (n : String) (log : Log)
    (st : status) (h : (c.Status env log).1 = Except.ok st) :
    (c.getServiceByName env n log).1 = (target env st n, none) := by
  unfold httpClient.getServiceByName
  cases hs : c.Status env log with
  | mk res log1 =>
    rw [hs] at h
    simp only at h
    subst h
    rfl

/-- C6, refuted as stated: the snapshot has a service entry named
`test-service`, listed by the group `other`; the status query succeeds and shows
that snapshot; the lookup of stop polling reports the service absent. -/
theorem getServiceByName_misses_other_group :
    (∃ e ∈ otherGroupSnapshot.Services, e.Name = "test-service") ∧
      (∃ g ∈ otherGroupSnapshot.ServiceGroups, "test-service" ∈ g.Services) ∧
      (fakeClient.Status (testServer ["other-group"]) []).1 = Except.ok otherGroupSnapshot ∧
      (fakeClient.getServiceByName (testServer ["other-group"]) "test-service" []).1
        = (none, none) := by
  refine ⟨by decide, by decide, rfl, by decide⟩

/-- C6, amended: for every snapshot the status query yields and every name n,
the lookup of stop polling finds a service exactly when the group `vcap` exists
and lists n and the snapshot has a service entry named n; the service found is
the first entry named n, so it bears that name; in every other case, also when
an entry named n is listed by another group only or by none, it reports the
service absent, without an error. -/
theorem getServiceByName_looks_in_vcap (c : httpClient) (env : Env) (n : String) (log : Log)
    (st : status) (h : (c.Status env log).1 = Except.ok st) :
    (((c.getServiceByName env n log).1.1).isSome = true ↔
        (∃ g, serviceGroupsTag.Get st.ServiceGroups "vcap" = some g ∧ n ∈ g.Services) ∧
          ∃ e ∈ st.Services, e.Name = n) ∧
      (∀ service, (c.getServiceByName env n log).1.1 = some service →
        service.Name = n ∧
          (servicesTag.Get st.Services n).map (serviceTag.toService env.Failure)
            = some service) ∧
      (c.getServiceByName env n log).1.2 = none := by
  rw [getServiceByName_of_status c env n log st h, target_eq]
  refine ⟨?_, ?_, rfl⟩
  · rw [← servicesTag_Get_isSome]
    cases serviceGroupsTag.Get st.ServiceGroups "vcap" with
    | none => simp
    | some g =>
      by_cases hmem : n ∈ g.Services
      · simp [hmem]
      · simp [hmem]
  · intro service hfound
    cases hg : serviceGroupsTag.Get st.ServiceGroups "vcap" with
    | none => rw [hg] at hfound; simp at hfound
    | some g =>
      rw [hg] at hfound
      by_cases hmem : n ∈ g.Services
      · simp only [hmem, if_true] at hfound
        refine ⟨?_, hfound⟩
        cases hget : servicesTag.Get st.Services n with
        | none => rw [hget] at hfound; simp at hfound
        | some e =>
          rw [hget] at hfound
          simp only [Option.map_some', Option.some.injEq] at hfound
          rw [← hfound]
          exact servicesTag_Get_name st.Services n e hget
      · simp [hmem] at hfound

theorem getServiceByName_looks_in_vcap_witness :
    (((fakeClient.getServiceByName (testServer ["stopped"]) "test-service" []).1.1).isSome = true ↔
        (∃ g, serviceGroupsTag.Get (snapshot 0 0 0 "").ServiceGroups "vcap" = some g ∧
            "test-service" ∈ g.Services) ∧
          ∃ e ∈ (snapshot 0 0 0 "").Services, e.Name = "test-service") ∧
      (∀ service,
        (fakeClient.getServiceByName (testServer ["stopped"]) "test-service" []).1.1
            = some service →
          service.Name = "test-service" ∧
            (servicesTag.Get (snapshot 0 0 0 "").Services "test-service").map
                (serviceTag.toService (testServer ["stopped"]).Failure)
              = some service) ∧
      (fakeClient.getServiceByName (testServer ["stopped"]) "test-service" []).1.2 = none :=
  getServiceByName_looks_in_vcap fakeClient (testServer ["stopped"]) "test-service" []
    (snapshot 0 0 0 "") rfl

/-! ### `monitURL` and plain names -/

theorem splitSlash_plain : ∀ cs : List Char, '/' ∉ cs → path.splitSlash cs = [cs] := by
  intro cs
  induction cs with
  | nil => intro _; rfl
  | cons c cs ih =>
    intro h
    have hc : c ≠ '/' := fun hc => h (by simp [hc])
    have hcs : '/' ∉ cs := fun hcs => h (by simp [hcs])
    simp [path.splitSlash, hc, ih hcs]

theorem Join_plain (name : String) (h : PlainName name) :
    path.Join ["/", name] = "/" ++ name := by
  obtain ⟨hne, hslash, hdot, hdotdot⟩ := h
  have hname : name ≠ "" := fun he => hne (by rw [he])
  have hdata : ("/" ++ "/" ++ name).data = '/' :: '/' :: name.data := by
    simp [String.data_append]
  have hfilter : List.filter (fun e => decide (e ≠ "")) ["/", name] = ["/", name] := by
    simp [List.filter, hname]
  have hjoin : String.intercalate "/" ["/", name] = "/" ++ "/" ++ name := by
    simp [String.intercalate, String.intercalate.go]
  unfold path.Join
  rw [hfilter]
  simp only [hjoin]
  unfold path.Clean
  rw [hdata]
  simp only [path.splitSlash, if_true, splitSlash_plain name.data hslash]
  simp only [path.cleanElems, true_or, if_true, hne, hdot, hdotdot, or_self, if_false,
    List.reverse_cons, List.reverse_nil, List.nil_append, decide_True]
  apply String.ext
  simp [List.intercalate]

/-! ### Start and stop over the two transports -/

/-- C9, refuted as stated: for the service name `nginx/`, the one request that
StartService issues goes to the path `/nginx`, which is not `/` followed by the
name. -/
theorem StartService_cleans_path :
    (fakeClient.StartService (testServer []) "nginx/" []).2.map
        (fun call => call.request.URL.Path) = ["/nginx"] ∧
      ("/nginx" : String) ≠ "/" ++ "nginx/" := by
  constructor <;> decide

/-- C9, amended: for every service name for which the request can be built,
StartService issues exactly one request: a POST on the configured host, with
body action=start, basic auth and the form content type, to the path
`path.Join("/", name)`, sent over the short client; that path is `/` followed
by the name whenever the name is one ordinary path element. Nothing goes over
the long client and nothing is a status GET, and StartService succeeds exactly
when that one request is answered with status 200. -/
theorem StartService_one_post (host username password : String) (env : Env)
    (serviceName : String) (log : Log)
    (hbuilt : env.NewRequest "POST"
      { Scheme := "http", Host := host, Path := path.Join ["/", serviceName], RawQuery := "" }
        = none) :
    ((NewHTTPClient host username password boshhttp.Client.short boshhttp.Client.long).StartService
        env serviceName log).2 =
      log ++ [{ client := boshhttp.Client.short
                request :=
                  { Method := "POST"
                    URL := { Scheme := "http", Host := host,
                             Path := path.Join ["/", serviceName], RawQuery := "" }
                    Body := "action=start"
                    BasicAuth := (username, password)
                    ContentType := "application/x-www-form-urlencoded" } }] ∧
    (((NewHTTPClient host username password boshhttp.Client.short
          boshhttp.Client.long).StartService env serviceName log).1 = none ↔
      ∃ r, env.Do log boshhttp.Client.short
          { Method := "POST"
            URL := { Scheme := "http", Host := host,
                     Path := path.Join ["/", serviceName], RawQuery := "" }
            Body := "action=start"
            BasicAuth := (username, password)
            ContentType := "application/x-www-form-urlencoded" } = Except.ok r ∧
        r.StatusCode = 200) ∧
    (PlainName serviceName → path.Join ["/", serviceName] = "/" ++ serviceName) := by
  refine ⟨?_, ?_, Join_plain serviceName⟩
  · simp only [httpClient.StartService, httpClient.makeRequest, httpClient.monitURL,
      NewHTTPClient, hbuilt, httpClient.buildRequest]
    split
    · next heq => simp only [Prod.mk.injEq] at heq; rw [← heq.2]
    · next heq =>
      simp only [Prod.mk.injEq] at heq
      rw [← heq.2]
      split <;> rfl
  · simp only [httpClient.StartService, httpClient.makeRequest, httpClient.monitURL,
      NewHTTPClient, hbuilt, httpClient.buildRequest]
    split
    · next err log1 heq =>
      simp only [Prod.mk.injEq] at heq
      simp [heq.1]
    · next response log1 heq =>
      simp only [Prod.mk.injEq] at heq
      rw [heq.1]
      by_cases hcode : response.StatusCode = 200
      · simp [httpClient.validateResponse, hcode]
      · have hv : ∃ err, httpClient.validateResponse
            { startClient := boshhttp.Client.short, stopClient := boshhttp.Client.long,
              unmonitorClient := boshhttp.Client.long, statusClient := boshhttp.Client.short,
              host := host, username := username, password := password } response
            = some err := by
          simp only [httpClient.validateResponse, hcode, if_false]
          cases response.Body <;> exact ⟨_, rfl⟩
        obtain ⟨err, herr⟩ := hv
        simp [herr, hcode]

theorem StartService_one_post_witness :
    (fakeClient.StartService (testServer []) "test-service" []).2 =
      [] ++ [{ client := boshhttp.Client.short
               request :=
                 { Method := "POST"
                   URL := { Scheme := "http", Host := "agent.example.com",
                            Path := path.Join ["/", "test-service"], RawQuery := "" }
                   Body := "action=start"
                   BasicAuth := ("fake-user", "fake-pass")
                   ContentType := "application/x-www-form-urlencoded" } }] ∧
    ((fakeClient.StartService (testServer []) "test-service" []).1 = none ↔
      ∃ r, (testServer []).Do [] boshhttp.Client.short
          { Method := "POST"
            URL := { Scheme := "http", Host := "agent.example.com",
                     Path := path.Join ["/", "test-service"], RawQuery := "" }
            Body := "action=start"
            BasicAuth := ("fake-user", "fake-pass")
            ContentType := "application/x-www-form-urlencoded" } = Except.ok r ∧
        r.StatusCode = 200) ∧
    (PlainName "test-service" → path.Join ["/", "test-service"] = "/" ++ "test-service") :=
  StartService_one_post "agent.example.com" "fake-user" "fake-pass" (testServer [])
    "test-service" [] rfl

/-- C10, refuted as stated: with the fake transports of the test, the long
client answers 200 to every request, and yet StopService returns an error (the
target was not found), has made one call on the short client, the status GET,
and the first of its two requests on the long client has the body
action=unmonitor; the stop POST is the second. -/
theorem StopService_unmonitors_first_and_polls :
    (∀ log request, ∃ r,
        fakeTransports.Do log boshhttp.Client.long request = Except.ok r ∧
          r.StatusCode = 200) ∧
      (fakeClient.StopService fakeTransports "test-service" 5 []).1
        = some (some ("Waiting for Monit service 'test-service' to stop: "
            ++ "Service 'test-service' was not found")) ∧
      (fakeClient.StopService fakeTransports "test-service" 5 []).2.filter
          (fun call => call.client = boshhttp.Client.short) = [statusCall fakeClient] ∧
      ((fakeClient.StopService fakeTransports "test-service" 5 []).2.filter
          (fun call => call.client = boshhttp.Client.long)).map
        (fun call => call.request.Body) = ["action=unmonitor", "action=stop"] := by
  exact ⟨fun _ _ => ⟨_, rfl, rfl⟩, by decide, by decide, by decide⟩

theorem StopService_transports (c : httpClient)
    (host username password : String) (env : Env) (serviceName : String)
    (pending : List status) (last : status) (service : Service) (fuel : Nat)
    (hc : c = NewHTTPClient host username password boshhttp.Client.short boshhttp.Client.long)
    (hbuilt : ∀ method url, env.NewRequest method url = none)
    (hlong : ∀ log request, ∃ r,
      env.Do log boshhttp.Client.long request = Except.ok r ∧ r.StatusCode = 200)
    (hshort : ∀ i st, (pending ++ [last])[i]? = some st →
      Shows env ([unmonitorCall c serviceName, stopCall c serviceName]
        ++ List.replicate i (statusCall c)) (statusCall c) st)
    (hpending : ∀ st ∈ pending, PendingIn env serviceName st)
    (hlast : target env last serviceName = some service)
    (hsettled : service.Pending = false)
    (hfine : service.Errored = false)
    (hfuel : pending.length < fuel) :
    (c.StopService env serviceName fuel []).1 = some none ∧
      (c.StopService env serviceName fuel []).2.filter
          (fun call => call.client = boshhttp.Client.long)
        = [unmonitorCall c serviceName, stopCall c serviceName] ∧
      ((c.StopService env serviceName fuel []).2.filter
          (fun call => call.client = boshhttp.Client.long)).map
          (fun call => (call.request.Method, call.request.URL.Path, call.request.Body))
        = [("POST", path.Join ["/", serviceName], "action=unmonitor"),
           ("POST", path.Join ["/", serviceName], "action=stop")] ∧
      (c.StopService env serviceName fuel []).2.filter
          (fun call => call.client = boshhttp.Client.short)
        = List.replicate (pending.length + 1) (statusCall c) := by
  have hun : c.unmonitorClient = boshhttp.Client.long := by rw [hc]; rfl
  have hst : c.stopClient = boshhttp.Client.long := by rw [hc]; rfl
  have hsc : c.statusClient = boshhttp.Client.short := by rw [hc]; rfl
  have hscript : StopScript c env serviceName [] (pending ++ [last]) := by
    refine ⟨⟨hbuilt _ _, ?_⟩, ⟨hbuilt _ _, ?_⟩, ?_⟩
    · simp only [unmonitorCall, hun]
      exact hlong _ _
    · simp only [stopCall, hst]
      exact hlong _ _
    · simpa using hshort
  have hrun := StopService_settled c env serviceName [] pending last service fuel hscript
    hpending hlast hsettled hfuel
  have hafter : httpClient.afterLoop serviceName service = none := by
    simp [httpClient.afterLoop, hfine]
  rw [hrun, hafter]
  have hlongs : List.filter (fun call => decide (call.client = boshhttp.Client.long))
      ([] ++ [unmonitorCall c serviceName, stopCall c serviceName]
        ++ List.replicate (pending.length + 1) (statusCall c))
      = [unmonitorCall c serviceName, stopCall c serviceName] := by
    rw [List.filter_append, List.nil_append]
    have h1 : List.filter (fun call => decide (call.client = boshhttp.Client.long))
        [unmonitorCall c serviceName, stopCall c serviceName]
        = [unmonitorCall c serviceName, stopCall c serviceName] := by
      simp [List.filter, unmonitorCall, stopCall, hun, hst]
    have h2 : List.filter (fun call => decide (call.client = boshhttp.Client.long))
        (List.replicate (pending.length + 1) (statusCall c)) = [] := by
      rw [List.filter_eq_nil_iff]
      intro a ha
      rw [List.eq_of_mem_replicate ha]
      simp [statusCall, hsc]
    rw [h1, h2, List.append_nil]
  refine ⟨rfl, hlongs, ?_, ?_⟩
  · simp only [hlongs]
    simp [unmonitorCall, stopCall, httpClient.buildRequest, httpClient.monitURL]
  · simp only
    rw [List.filter_append, List.nil_append]
    have h1 : List.filter (fun call => decide (call.client = boshhttp.Client.short))
        [unmonitorCall c serviceName, stopCall c serviceName] = [] := by
      simp [List.filter, unmonitorCall, stopCall, hun, hst]
    have h2 : List.filter (fun call => decide (call.client = boshhttp.Client.short))
        (List.replicate (pending.length + 1) (statusCall c))
        = List.replicate (pending.length + 1) (statusCall c) := by
      rw [List.filter_eq_self]
      intro a ha
      rw [List.eq_of_mem_replicate ha]
      simp [statusCall, hsc]
    rw [h1, h2, List.nil_append]

/-! ### Listing a group -/

theorem serviceGroupsTag_Get_first (before after : List serviceGroupTag) (g : serviceGroupTag)
    (G : String) (hname : g.Name = G) (hbefore : ∀ p ∈ before, p.Name ≠ G) :
    serviceGroupsTag.Get (before ++ g :: after) G = some g := by
  unfold serviceGroupsTag.Get
  induction before with
  | nil => simp [hname]
  | cons p ps ih =>
    have hp : (p.Name == G) = false := by
      simpa using hbefore p (by simp)
    rw [List.cons_append, List.find?_cons, hp]
    exact ih (fun q hq => hbefore q (by simp [hq]))

theorem serviceGroupsTag_Get_none (groups : List serviceGroupTag) (G : String)
    (h : ∀ g ∈ groups, g.Name ≠ G) : serviceGroupsTag.Get groups G = none := by
  unfold serviceGroupsTag.Get
  rw [List.find?_eq_none]
  intro g hg
  simpa using h g hg

theorem ServicesInGroup_of_status (c : httpClient) (env : Env) (G : String) (log : Log)
    (st : status) (h : (c.Status env log).1 = Except.ok st) :
    c.ServicesInGroup env G log =
      (match serviceGroupsTag.Get st.ServiceGroups G with
        | none => Except.ok []
        | some serviceGroup => Except.ok serviceGroup.Services, (c.Status env log).2) := by
  unfold httpClient.ServicesInGroup
  cases hs : c.Status env log with
  | mk res log1 =>
    rw [hs] at h
    simp only at h
    subst h
    simp only
    cases serviceGroupsTag.Get st.ServiceGroups G <;> rfl

/-- C11: for every status document that the status query decodes and every
group name G, ServicesInGroup(G) returns, with no error, exactly the member
names of the group named G in document order when the document has such a
group (the first one, should the name occur twice), and the empty sequence
when it has none; it makes no call beyond the status query. -/
theorem ServicesInGroup_member_names (c : httpClient) (env : Env) (G : String) (log : Log)
    (st : status) (h : (c.Status env log).1 = Except.ok st) :
    (∀ before g after, st.ServiceGroups = before ++ g :: after → g.Name = G →
        (∀ p ∈ before, p.Name ≠ G) →
        (c.ServicesInGroup env G log).1 = Except.ok g.Services) ∧
      ((∀ g ∈ st.ServiceGroups, g.Name ≠ G) →
        (c.ServicesInGroup env G log).1 = Except.ok []) ∧
      (c.ServicesInGroup env G log).2 = (c.Status env log).2 := by
  rw [ServicesInGroup_of_status c env G log st h]
  refine ⟨?_, ?_, rfl⟩
  · intro before g after hdoc hname hbefore
    rw [hdoc, serviceGroupsTag_Get_first before after g G hname hbefore]
  · intro hnone
    rw [serviceGroupsTag_Get_none st.ServiceGroups G hnone]

theorem ServicesInGroup_member_names_witness :
    (fakeClient.ServicesInGroup fixtureServer "batch" []).1 = Except.ok ["worker", "gone"] ∧
      (fakeClient.ServicesInGroup fixtureServer "absent" []).1 = Except.ok [] ∧
      (fakeClient.ServicesInGroup fixtureServer "batch" []).2
        = (fakeClient.Status fixtureServer []).2 :=
  ⟨(ServicesInGroup_member_names fakeClient fixtureServer "batch" [] fixtureSnapshot rfl).1
      [{ Name := "vcap", Services := ["dummy"] }]
      { Name := "batch", Services := ["worker", "gone"] } [] rfl rfl (by decide),
    (ServicesInGroup_member_names fakeClient fixtureServer "absent" [] fixtureSnapshot rfl).2.1
      (by decide),
    (ServicesInGroup_member_names fakeClient fixtureServer "batch" [] fixtureSnapshot rfl).2.2⟩

/-! ### The texts of failures -/

theorem names_of_eq (text operation serviceName middle cause : String)
    (h : text = operation ++ serviceName ++ middle ++ cause) :
    Names text operation serviceName := by
  constructor
  · exact textContains_of_eq text "" operation (serviceName ++ middle ++ cause)
      (by rw [h]; simp only [String.append_assoc, String.empty_append])
  · exact textContains_of_eq text operation serviceName (middle ++ cause)
      (by rw [h]; simp only [String.append_assoc])

theorem wrap_stopping (serviceName cause : String) :
    bosherr.WrapError cause ("Stopping Monit service '" ++ serviceName ++ "'") =
      "Stopping Monit service '" ++ serviceName ++ "': " ++ cause := by
  have h : ("': " : String) = "'" ++ ": " := by decide
  unfold bosherr.WrapError
  rw [h]
  simp only [String.append_assoc]

theorem sending_text (fixed operation cause : String)
    (h : fixed = "Sending " ++ operation ++ " request to monit: ") :
    TextContains (fixed ++ cause) operation ∧ TextContains (fixed ++ cause) cause := by
  constructor
  · exact textContains_of_eq _ "Sending " operation (" request to monit: " ++ cause)
      (by rw [h]; simp only [String.append_assoc])
  · exact textContains_of_eq _ fixed cause "" (by simp)

theorem validateResponse_fails (c : httpClient) (r : Response) (h : r.StatusCode ≠ 200) :
    ∃ cause, c.validateResponse r = some cause := by
  simp only [httpClient.validateResponse, h, if_false]
  cases r.Body <;> exact ⟨_, rfl⟩

/-- C12, refuted as stated: with transports that fail below the HTTP layer,
StartService, UnmonitorService and the stop request of StopService fail with a
text that names the operation and carries the cause, and the service name
`test-service` occurs in none of the three. -/
theorem transport_failure_omits_service :
    (fakeClient.StartService transportDown "test-service" []).1
        = some "Sending start request to monit: connection refused" ∧
      ¬ TextContains "Sending start request to monit: connection refused" "test-service" ∧
    (fakeClient.UnmonitorService transportDown "test-service" []).1
        = some "Sending unmonitor request to monit: connection refused" ∧
      ¬ TextContains "Sending unmonitor request to monit: connection refused" "test-service" ∧
    (fakeClient.StopService transportDown "test-service" 5 []).1
        = some (some "Sending stop request to monit: connection refused") ∧
      ¬ TextContains "Sending stop request to monit: connection refused" "test-service" := by
  refine ⟨?_, ?_, ?_, ?_, ?_, ?_⟩ <;> decide

/-- C12, amended: for every service name, when the POST of StartService,
UnmonitorService or StopService is answered with a status other than 200, the
error names the operation and the service: it is `Starting Monit service`,
`Unmonitoring Monit service` or `Stopping Monit service` followed by the name
(quoted for stop), a colon and the cause. When the request fails before any
response arrives, the error is `Sending start request to monit`,
`Sending unmonitor request to monit` or `Sending stop request to monit`,
a colon and the cause, the same text whatever the service name: it names the
operation and carries the cause. -/
theorem failure_names_operation (c : httpClient) (env : Env) (serviceName : String) (fuel : Nat)
    (log : Log) :
    (∀ cause,
        (c.makeRequest env c.startClient (c.monitURL serviceName) "POST" "action=start" log).1
          = Except.error cause →
        ∃ text, (c.StartService env serviceName log).1 = some text ∧
          text = "Sending start request to monit: " ++ cause ∧
          TextContains text "start" ∧ TextContains text cause) ∧
    (∀ r,
        (c.makeRequest env c.startClient (c.monitURL serviceName) "POST" "action=start" log).1
          = Except.ok r →
        r.StatusCode ≠ 200 →
        ∃ cause text, c.validateResponse r = some cause ∧
          (c.StartService env serviceName log).1 = some text ∧
          text = "Starting Monit service " ++ serviceName ++ ": " ++ cause ∧
          Names text "Starting Monit service " serviceName) ∧
    (∀ cause,
        (c.makeRequest env c.unmonitorClient (c.monitURL serviceName) "POST" "action=unmonitor"
          log).1 = Except.error cause →
        ∃ text, (c.UnmonitorService env serviceName log).1 = some text ∧
          text = "Sending unmonitor request to monit: " ++ cause ∧
          TextContains text "unmonitor" ∧ TextContains text cause) ∧
    (∀ r,
        (c.makeRequest env c.unmonitorClient (c.monitURL serviceName) "POST" "action=unmonitor"
          log).1 = Except.ok r →
        r.StatusCode ≠ 200 →
        ∃ cause text, c.validateResponse r = some cause ∧
          (c.UnmonitorService env serviceName log).1 = some text ∧
          text = "Unmonitoring Monit service " ++ serviceName ++ ": " ++ cause ∧
          Names text "Unmonitoring Monit service " serviceName) ∧
    (∀ cause,
        (c.makeRequest env c.stopClient (c.monitURL serviceName) "POST" "action=stop"
          (c.UnmonitorService env serviceName log).2).1 = Except.error cause →
        ∃ text, (c.StopService env serviceName fuel log).1 = some (some text) ∧
          text = "Sending stop request to monit: " ++ cause ∧
          TextContains text "stop" ∧ TextContains text cause) ∧
    (∀ r,
        (c.makeRequest env c.stopClient (c.monitURL serviceName) "POST" "action=stop"
          (c.UnmonitorService env serviceName log).2).1 = Except.ok r →
        r.StatusCode ≠ 200 →
        ∃ cause text, c.validateResponse r = some cause ∧
          (c.StopService env serviceName fuel log).1 = some (some text) ∧
          text = "Stopping Monit service '" ++ serviceName ++ "': " ++ cause ∧
          Names text "Stopping Monit service '" serviceName) := by
  refine ⟨?_, ?_, ?_, ?_, ?_, ?_⟩
  · intro cause h
    refine ⟨"Sending start request to monit: " ++ cause, ?_, rfl,
      sending_text _ "start" cause (by decide)⟩
    unfold httpClient.StartService
    cases hm : c.makeRequest env c.startClient (c.monitURL serviceName) "POST" "action=start"
        log with
    | mk res log1 =>
      rw [hm] at h
      simp only at h
      subst h
      simp [bosherr.WrapError]
  · intro r h hcode
    obtain ⟨cause, hcause⟩ := validateResponse_fails c r hcode
    refine ⟨cause, _, hcause, ?_, rfl, names_of_eq _ _ _ ": " cause rfl⟩
    unfold httpClient.StartService
    cases hm : c.makeRequest env c.startClient (c.monitURL serviceName) "POST" "action=start"
        log with
    | mk res log1 =>
      rw [hm] at h
      simp only at h
      subst h
      simp only [hcause, bosherr.WrapError]
  · intro cause h
    refine ⟨"Sending unmonitor request to monit: " ++ cause, ?_, rfl,
      sending_text _ "unmonitor" cause (by decide)⟩
    unfold httpClient.UnmonitorService
    cases hm : c.makeRequest env c.unmonitorClient (c.monitURL serviceName) "POST"
        "action=unmonitor" log with
    | mk res log1 =>
      rw [hm] at h
      simp only at h
      subst h
      simp [bosherr.WrapError]
  · intro r h hcode
    obtain ⟨cause, hcause⟩ := validateResponse_fails c r hcode
    refine ⟨cause, _, hcause, ?_, rfl, names_of_eq _ _ _ ": " cause rfl⟩
    unfold httpClient.UnmonitorService
    cases hm : c.makeRequest env c.unmonitorClient (c.monitURL serviceName) "POST"
        "action=unmonitor" log with
    | mk res log1 =>
      rw [hm] at h
      simp only at h
      subst h
      simp only [hcause, bosherr.WrapError]
  · intro cause h
    refine ⟨"Sending stop request to monit: " ++ cause, ?_, rfl,
      sending_text _ "stop" cause (by decide)⟩
    unfold httpClient.StopService
    cases hm : c.makeRequest env c.stopClient (c.monitURL serviceName) "POST" "action=stop"
        (c.UnmonitorService env serviceName log).2 with
    | mk res log1 =>
      rw [hm] at h
      simp only at h
      subst h
      simp [hm, bosherr.WrapError]
  · intro r h hcode
    obtain ⟨cause, hcause⟩ := validateResponse_fails c r hcode
    refine ⟨cause, _, hcause, ?_, rfl, names_of_eq _ _ _ "': " cause rfl⟩
    unfold httpClient.StopService
    cases hm : c.makeRequest env c.stopClient (c.monitURL serviceName) "POST" "action=stop"
        (c.UnmonitorService env serviceName log).2 with
    | mk res log1 =>
      rw [hm] at h
      simp only at h
      subst h
      simp only [hm, hcause, wrap_stopping]

theorem failure_names_operation_witness :
    (∃ text, (fakeClient.StartService transportDown "test-service" []).1 = some text ∧
        text = "Sending start request to monit: " ++ "connection refused" ∧
        TextContains text "start" ∧ TextContains text "connection refused") ∧
    (∃ cause text,
        fakeClient.validateResponse 
          { StatusCode := 503, Status := "503 Service Unavailable", Body := Except.ok "busy" } = some cause ∧
          (fakeClient.StartService supervisorBusy "test-service" []).1 = some text ∧
          text = "Starting Monit service " ++ "test-service" ++ ": " ++ cause ∧
          Names text "Starting Monit service " "test-service") ∧
    (∃ text, (fakeClient.UnmonitorService transportDown "test-service" []).1 = some text ∧
        text = "Sending unmonitor request to monit: " ++ "connection refused" ∧
        TextContains text "unmonitor" ∧ TextContains text "connection refused") ∧
    (∃ cause text,
        fakeClient.validateResponse 
          { StatusCode := 503, Status := "503 Service Unavailable", Body := Except.ok "busy" } = some cause ∧
          (fakeClient.UnmonitorService supervisorBusy "test-service" []).1 = some text ∧
          text = "Unmonitoring Monit service " ++ "test-service" ++ ": " ++ cause ∧
          Names text "Unmonitoring Monit service " "test-service") ∧
    (∃ text,
        (fakeClient.StopService transportDown "test-service" 3 []).1 = some (some text) ∧
        text = "Sending stop request to monit: " ++ "connection refused" ∧
        TextContains text "stop" ∧ TextContains text "connection refused") ∧
    (∃ cause text,
        fakeClient.validateResponse 
          { StatusCode := 503, Status := "503 Service Unavailable", Body := Except.ok "busy" } = some cause ∧
          (fakeClient.StopService supervisorBusy "test-service" 3 []).1 = some (some text) ∧
          text = "Stopping Monit service '" ++ "test-service" ++ "': " ++ cause ∧
          Names text "Stopping Monit service '" "test-service") :=
  ⟨(failure_names_operation fakeClient transportDown "test-service" 3 []).1
      "connection refused" rfl,
    (failure_names_operation fakeClient supervisorBusy "test-service" 3 []).2.1
      
          { StatusCode := 503, Status := "503 Service Unavailable", Body := Except.ok "busy" } rfl (by decide),
    (failure_names_operation fakeClient transportDown "test-service" 3 []).2.2.1
      "connection refused" rfl,
    (failure_names_operation fakeClient supervisorBusy "test-service" 3 []).2.2.2.1
      
          { StatusCode := 503, Status := "503 Service Unavailable", Body := Except.ok "busy" } rfl (by decide),
    (failure_names_operation fakeClient transportDown "test-service" 3 []).2.2.2.2.1
      "connection refused" rfl,
    (failure_names_operation fakeClient supervisorBusy "test-service" 3 []).2.2.2.2.2
      
          { StatusCode := 503, Status := "503 Service Unavailable", Body := Except.ok "busy" } rfl (by decide)⟩

/-! ### Stop polling of a member of `vcap` -/

theorem target_of_vcapEntry (env : Env) (st : status) (serviceName : String)
    (entry : serviceTag) (h : VcapEntry st serviceName entry) :
    target env st serviceName = some (entry.toService env.Failure) := by
  obtain ⟨⟨g, hg, hmem⟩, hentry⟩ := h
  rw [target_eq, hg]
  simp [hmem, hentry]

theorem pendingIn_of_vcapEntry (env : Env) (serviceName : String) (pending : List status)
    (h : ∀ st ∈ pending, ∃ entry, VcapEntry st serviceName entry ∧
      (entry.toService env.Failure).Pending = true) :
    ∀ st ∈ pending, PendingIn env serviceName st := by
  intro st hst
  obtain ⟨entry, hentry, hpending⟩ := h st hst
  exact ⟨_, target_of_vcapEntry env st serviceName entry hentry, hpending⟩

/-- C1, refuted as stated: the unmonitor and stop POSTs are answered 200 and
the one snapshot served has the entry `test-service`, stopped (not monitored,
not pending, not errored) and listed by the group `other` only. The claim (with
k = 0) promises success after one status GET; StopService makes that one GET
and fails, the target not being found. -/
theorem StopService_misses_entry_outside_vcap :
    StopScript fakeClient (testServer ["other-group-stopped"]) "test-service" []
        [outsideVcapStopped] ∧
      (∃ e ∈ outsideVcapStopped.Services, e.Name = "test-service" ∧ e.Monitor = 0 ∧
        (e.toService (testServer ["other-group-stopped"]).Failure).Pending = false ∧
        (e.toService (testServer ["other-group-stopped"]).Failure).Errored = false) ∧
      fakeClient.StopService (testServer ["other-group-stopped"]) "test-service" 5 []
        = (some (some ("Waiting for Monit service 'test-service' to stop: "
              ++ "Service 'test-service' was not found")),
            [unmonitorCall fakeClient "test-service", stopCall fakeClient "test-service",
              statusCall fakeClient]) := by
  refine ⟨?_, by decide, by decide⟩
  exact testServer_script fakeClient "test-service" ["other-group-stopped"]
    [outsideVcapStopped]
    (fun i st hi => by
      match i, hi with
      | 0, hi => simp at hi; subst hi; rfl
      | i + 1, hi => simp at hi)
    (by decide)

/-- C1, amended: let the unmonitor POST and the stop POST be answered 200, and
let the status queries show k snapshots in which the group `vcap` lists the
target and its entry is pending, then a snapshot in which `vcap` lists the
target and its entry is not pending and is either errored or no longer
monitored (monitor flag 0). Then StopService (given more than k iterations)
makes exactly these calls, in this order: one unmonitor POST, one stop POST,
k+1 status GETs; it returns, and returns success exactly when the target is
not errored in snapshot k+1. -/
theorem StopService_polls_vcap_member (c : httpClient) (env : Env) (serviceName : String)
    (log : Log) (pending : List status) (last : status) (entry : serviceTag) (fuel : Nat)
    (hscript : StopScript c env serviceName log (pending ++ [last]))
    (hpending : ∀ st ∈ pending, ∃ e, VcapEntry st serviceName e ∧
      (e.toService env.Failure).Pending = true)
    (hlast : VcapEntry last serviceName entry)
    (hsettled : (entry.toService env.Failure).Pending = false)
    (_hstopped : (entry.toService env.Failure).Errored = true ∨ entry.Monitor = 0)
    (hfuel : pending.length < fuel) :
    (c.StopService env serviceName fuel log).2 =
        log ++ [unmonitorCall c serviceName, stopCall c serviceName]
          ++ List.replicate (pending.length + 1) (statusCall c) ∧
      ∃ result, (c.StopService env serviceName fuel log).1 = some result ∧
        (result = none ↔ (entry.toService env.Failure).Errored = false) := by
  rw [StopService_settled c env serviceName log pending last (entry.toService env.Failure) fuel
    hscript (pendingIn_of_vcapEntry env serviceName pending hpending)
    (target_of_vcapEntry env last serviceName entry hlast) hsettled hfuel]
  refine ⟨rfl, _, rfl, ?_⟩
  unfold httpClient.afterLoop
  cases (entry.toService env.Failure).Errored <;> simp

theorem StopService_polls_vcap_member_witness :
    (fakeClient.StopService (testServer ["stopping", "stopped"]) "test-service" 2 []).2 =
        [] ++ [unmonitorCall fakeClient "test-service", stopCall fakeClient "test-service"]
          ++ List.replicate ([snapshot 0 0 3 ""].length + 1) (statusCall fakeClient) ∧
      ∃ result,
        (fakeClient.StopService (testServer ["stopping", "stopped"]) "test-service" 2 []).1
            = some result ∧
          (result = none ↔
            (({ Name := "test-service", Monitor := 0, Status := 0, PendingAction := 0,
                StatusMessage := "" } : serviceTag).toService
              (testServer ["stopping", "stopped"]).Failure).Errored = false) :=
  StopService_polls_vcap_member fakeClient (testServer ["stopping", "stopped"]) "test-service"
    [] [snapshot 0 0 3 ""] (snapshot 0 0 0 "")
    { Name := "test-service", Monitor := 0, Status := 0, PendingAction := 0,
      StatusMessage := "" } 2
    (testServer_script fakeClient "test-service" ["stopping", "stopped"]
      ([snapshot 0 0 3 ""] ++ [snapshot 0 0 0 ""])
      (fun i st hi => by
        match i, hi with
        | 0, hi => simp at hi; subst hi; rfl
        | 1, hi => simp at hi; subst hi; rfl
        | i + 2, hi => simp at hi)
      (by decide))
    (fun st hst => by
      simp at hst
      subst hst
      exact ⟨{ Name := "test-service", Monitor := 0, Status := 0, PendingAction := 3,
               StatusMessage := "" },
        ⟨⟨{ Name := "vcap", Services := ["test-service"] }, by decide, by decide⟩, by decide⟩,
        by decide⟩)
    ⟨⟨{ Name := "vcap", Services := ["test-service"] }, by decide, by decide⟩, by decide⟩
    (by decide) (Or.inr rfl) (by decide)

/-- C10, amended: let the client be built by NewHTTPClient, let every request be
buildable, let the long client answer 200 to every request, and let the status
answers on the short client show k snapshots in which the group `vcap` lists
the target and its entry is pending, then a snapshot in which `vcap` lists the
target and its entry is not pending, not errored and no longer monitored
(monitor flag 0). Then StopService (given more than k iterations) returns no
error; it makes exactly two calls on the long client, first the unmonitor POST
and second the stop POST, both to `path.Join("/", name)`; and it makes exactly
k+1 calls on the short client, each one the status GET. -/
theorem StopService_long_then_short_calls (c : httpClient)
    (host username password : String) (env : Env) (serviceName : String)
    (pending : List status) (last : status) (entry : serviceTag) (fuel : Nat)
    (hc : c = NewHTTPClient host username password boshhttp.Client.short boshhttp.Client.long)
    (hbuilt : ∀ method url, env.NewRequest method url = none)
    (hlong : ∀ log request, ∃ r,
      env.Do log boshhttp.Client.long request = Except.ok r ∧ r.StatusCode = 200)
    (hshort : ∀ i st, (pending ++ [last])[i]? = some st →
      Shows env ([unmonitorCall c serviceName, stopCall c serviceName]
        ++ List.replicate i (statusCall c)) (statusCall c) st)
    (hpending : ∀ st ∈ pending, ∃ e, VcapEntry st serviceName e ∧
      (e.toService env.Failure).Pending = true)
    (hlast : VcapEntry last serviceName entry)
    (hsettled : (entry.toService env.Failure).Pending = false)
    (hfine : (entry.toService env.Failure).Errored = false)
    (_hunmonitored : entry.Monitor = 0)
    (hfuel : pending.length < fuel) :
    (c.StopService env serviceName fuel []).1 = some none ∧
      (c.StopService env serviceName fuel []).2.filter
          (fun call => call.client = boshhttp.Client.long)
        = [unmonitorCall c serviceName, stopCall c serviceName] ∧
      ((c.StopService env serviceName fuel []).2.filter
          (fun call => call.client = boshhttp.Client.long)).map
          (fun call => (call.request.Method, call.request.URL.Path, call.request.Body))
        = [("POST", path.Join ["/", serviceName], "action=unmonitor"),
           ("POST", path.Join ["/", serviceName], "action=stop")] ∧
      (c.StopService env serviceName fuel []).2.filter
          (fun call => call.client = boshhttp.Client.short)
        = List.replicate (pending.length + 1) (statusCall c) :=
  StopService_transports c host username password env serviceName pending last
    (entry.toService env.Failure) fuel hc hbuilt hlong hshort
    (pendingIn_of_vcapEntry env serviceName pending hpending)
    (target_of_vcapEntry env last serviceName entry hlast) hsettled hfine hfuel

theorem StopService_long_then_short_calls_witness :
    (fakeClient.StopService (testServer ["stopping", "stopped"]) "test-service" 2 []).1
        = some none ∧
      (fakeClient.StopService (testServer ["stopping", "stopped"]) "test-service" 2 []).2.filter
          (fun call => call.client = boshhttp.Client.long)
        = [unmonitorCall fakeClient "test-service", stopCall fakeClient "test-service"] ∧
      ((fakeClient.StopService (testServer ["stopping", "stopped"]) "test-service" 2 []).2.filter
          (fun call => call.client = boshhttp.Client.long)).map
          (fun call => (call.request.Method, call.request.URL.Path, call.request.Body))
        = [("POST", path.Join ["/", "test-service"], "action=unmonitor"),
           ("POST", path.Join ["/", "test-service"], "action=stop")] ∧
      (fakeClient.StopService (testServer ["stopping", "stopped"]) "test-service" 2 []).2.filter
          (fun call => call.client = boshhttp.Client.short)
        = List.replicate ([snapshot 0 0 3 ""].length + 1) (statusCall fakeClient) :=
  StopService_long_then_short_calls fakeClient "agent.example.com" "fake-user" "fake-pass"
    (testServer ["stopping", "stopped"]) "test-service" [snapshot 0 0 3 ""] (snapshot 0 0 0 "")
    { Name := "test-service", Monitor := 0, Status := 0, PendingAction := 0,
      StatusMessage := "" } 2
    rfl (fun _ _ => rfl)
    (fun log request => by
      by_cases hpath : request.URL.Path = "/_status2"
      · exact ⟨_, if_pos hpath, rfl⟩
      · exact ⟨_, if_neg hpath, rfl⟩)
    (fun i st hi => by
      match i, hi with
      | 0, hi => simp at hi; subst hi; exact ⟨rfl, _, rfl, rfl, rfl⟩
      | 1, hi => simp at hi; subst hi; exact ⟨rfl, _, rfl, rfl, rfl⟩
      | i + 2, hi => simp at hi)
    (fun st hst => by
      simp at hst
      subst hst
      exact ⟨{ Name := "test-service", Monitor := 0, Status := 0, PendingAction := 3,
               StatusMessage := "" },
        ⟨⟨{ Name := "vcap", Services := ["test-service"] }, by decide, by decide⟩, by decide⟩,
        by decide⟩)
    ⟨⟨{ Name := "vcap", Services := ["test-service"] }, by decide, by decide⟩, by decide⟩
    (by decide) (by decide) rfl (by decide)

end monit
